import Mathlib

/-!
# nexo-mail: verification of the lead-automation relay

Shallow embedding of the nexo-mail repository (Next.js + Vercel KV + Brevo).
The key-value backend is modelled as association lists keyed by strings; the
nondeterministic inputs of the handlers (fresh ids from `generateId`,
timestamps from `Date`, and the outcomes of the external Brevo API calls)
are passed in as explicit parameters.  Timestamps are modelled as natural
numbers (`new Date(x).getTime()` order), JSON serialisation of `Lead`
records is the identity, and HMAC-SHA256/base64 is an abstract function
parameter.  JavaScript strings are modelled as Lean strings; `toLowerCase`,
`trim` and `split` are re-implemented over character lists so that concrete
runs evaluate by `decide`.
-/

namespace NexoMail

/-! ## JavaScript string primitives -/

/-- `String.prototype.trim`: strip whitespace from both ends. -/
def jsTrim (s : String) : String :=
  String.mk (((s.toList.dropWhile Char.isWhitespace).reverse.dropWhile
    Char.isWhitespace).reverse)

/-- `String.prototype.toLowerCase` (ASCII-faithful). -/
def jsToLower (s : String) : String :=
  String.mk (s.toList.map Char.toLower)

/-- Split a character list on a separator character, as `String.prototype.split`
    does: the result is never empty, and empty segments are kept. -/
def splitChar (sep : Char) : List Char → List (List Char)
  | [] => [[]]
  | c :: cs =>
    let r := splitChar sep cs
    if c == sep then [] :: r
    else
      match r with
      | [] => [[c]]
      | h :: t => (c :: h) :: t

/-- `s.split(' ')` returning strings. -/
def jsSplitOnSpace (s : String) : List String :=
  (splitChar ' ' s.toList).map String.mk

/-! ## JSON field values

A field of a parsed JSON object, as the validation code inspects it:
absent, a string, or present with a non-string value (only its JS
truthiness matters to the code under verification). -/

inductive JField where
  | absent
  | str (s : String)
  | nonstr (truthy : Bool)
deriving DecidableEq

/-! ## Data model (`src/lib/types.ts`) -/

inductive LeadStatus where
  | new
  | subscribed
  | purchased
  | error
deriving DecidableEq

/-- The `Lead` record.  `tag` is carried as a string (the TypeScript union is
    erased at runtime); `createdAt`/`updatedAt` are time stamps. -/
structure Lead where
  id : String
  email : String
  name : Option String
  phone : Option String
  source : String
  tag : String
  status : LeadStatus
  brevoContactId : Option Nat
  woocommerceOrderId : Option String
  createdAt : Nat
  updatedAt : Nat
deriving DecidableEq

/-! ## The key-value hash primitives (`@vercel/kv` `hget`/`hset`/`hgetall`)

A Redis hash is an association list; `hset` overwrites the entry for an
existing field and appends a new entry otherwise; `hgetall` yields the
values in entry order. -/

section KV

variable {α : Type}

/-- `hget`: the value stored under field `k`, if any.  A Redis hash has at
    most one entry per field. -/
def hget : List (String × α) → String → Option α
  | [], _ => none
  | kv :: rest, k => if kv.1 == k then some kv.2 else hget rest k

/-- `hset`: overwrite the entry for an existing field, append otherwise. -/
def hset : List (String × α) → String → α → List (String × α)
  | [], k, v => [(k, v)]
  | kv :: rest, k, v => if kv.1 == k then (k, v) :: rest else kv :: hset rest k v

end KV

/-- The persistent state: the `leads` hash (id → record) and the
    `leads:email` index hash (email → id). -/
structure Store where
  leads : List (String × Lead)
  emailIndex : List (String × String)
deriving DecidableEq

def emptyStore : Store := { leads := [], emailIndex := [] }

/-! ## Lead Record Store (`src/lib/storage.ts`) -/

structure SaveLeadFields where
  email : String
  name : Option String
  phone : Option String
  source : String
  tag : String
deriving DecidableEq

/-- `saveLead`: assigns the generated id, status `new`, both time stamps,
    then writes the record and the email-index entry.  The generated id and
    the clock are parameters. -/
def saveLead (s : Store) (f : SaveLeadFields) (freshId : String) (now : Nat) :
    Lead × Store :=
  let lead : Lead :=
    { id := freshId, email := f.email, name := f.name, phone := f.phone
      source := f.source, tag := f.tag, status := LeadStatus.new
      brevoContactId := none, woocommerceOrderId := none
      createdAt := now, updatedAt := now }
  (lead,
    { leads := hset s.leads freshId lead
      emailIndex := hset s.emailIndex f.email freshId })

/-- The `additionalData` argument of `updateLeadStatus`, in the three shapes
    the call sites use: absent, `{brevoContactId: …}` (whose value may be
    `undefined`), or `{woocommerceOrderId: …}`. -/
inductive LeadPatch where
  | noPatch
  | brevoId (v : Option Nat)
  | orderId (v : String)
deriving DecidableEq

/-- `{...lead, ...additionalData, status, updatedAt: now}` -/
def Lead.applyPatch (l : Lead) (p : LeadPatch) (status : LeadStatus)
    (now : Nat) : Lead :=
  match p with
  | LeadPatch.noPatch => { l with status := status, updatedAt := now }
  | LeadPatch.brevoId v =>
      { l with brevoContactId := v, status := status, updatedAt := now }
  | LeadPatch.orderId v =>
      { l with woocommerceOrderId := some v, status := status, updatedAt := now }

/-- `updateLeadStatus`: load by id (`null` when absent), merge the patch, set
    the status unconditionally, refresh `updatedAt`, write back. -/
def updateLeadStatus (s : Store) (id : String) (status : LeadStatus)
    (p : LeadPatch) (now : Nat) : Option Lead × Store :=
  match hget s.leads id with
  | none => (none, s)
  | some lead =>
    let updatedLead := lead.applyPatch p status now
    (some updatedLead, { s with leads := hset s.leads id updatedLead })

/-- `getLeadByEmail`: resolve the email index, then load the record; an empty
    string stored in the index is falsy in JS and also yields `null`. -/
def getLeadByEmail (s : Store) (email : String) : Option Lead :=
  match hget s.emailIndex email with
  | none => none
  | some leadId => if leadId == "" then none else hget s.leads leadId

def getLeadById (s : Store) (id : String) : Option Lead :=
  hget s.leads id

/-- Options object of `getLeads`. -/
structure GetLeadsOptions where
  status : Option LeadStatus := none
  tag : Option String := none
  limit : Option Nat := none
  offset : Option Nat := none
deriving DecidableEq

/-- Stable insertion into a list sorted by `createdAt` descending: the new
    element goes in front of the first element whose key is `≤` its own, so
    earlier-listed elements win ties (the stability `Array.prototype.sort`
    guarantees). -/
def insertByCreatedAtDesc (l : Lead) : List Lead → List Lead
  | [] => [l]
  | x :: xs =>
    if x.createdAt ≤ l.createdAt then l :: x :: xs
    else x :: insertByCreatedAtDesc l xs

/-- `leads.sort((a, b) => b.createdAt - a.createdAt)`: the stable sort by
    `createdAt` descending, modelled by stable insertion sort. -/
def sortByCreatedAtDesc : List Lead → List Lead
  | [] => []
  | x :: xs => insertByCreatedAtDesc x (sortByCreatedAtDesc xs)

/-- `getLeads`: load all records, filter on status and (truthy) tag, sort by
    `createdAt` descending, then `slice(offset, offset + limit)` with the
    falsy-defaulting `options?.offset || 0` and `options?.limit || 100`.
    When the backend read throws (`backendFail`), the `catch` logs and
    returns the empty list. -/
def getLeads (backendFail : Bool) (s : Store) (o : GetLeadsOptions) :
    List Lead :=
  if backendFail then []
  else
    let leads := s.leads.map (fun kv => kv.2)
    let leads :=
      match o.status with
      | some st => leads.filter (fun l => l.status == st)
      | none => leads
    let leads :=
      match o.tag with
      | some t => if t == "" then leads else leads.filter (fun l => l.tag == t)
      | none => leads
    let sorted := sortByCreatedAtDesc leads
    let offset := o.offset.getD 0
    let limit :=
      match o.limit with
      | some n => if n == 0 then 100 else n
      | none => 100
    (sorted.drop offset).take limit

/-! ## Metrics (`getMetrics` in `src/lib/storage.ts`) -/

/-- The zero-filled `leadsByTag` record literal of `getMetrics`: its keys are
    `general`, `reel-fitness`, `reel-nutricion`, `story-promo`. -/
structure TagCounts where
  general : Nat
  reelFitness : Nat
  reelNutricion : Nat
  storyPromo : Nat
deriving DecidableEq

structure DashboardMetrics where
  totalLeads : Nat
  newLeads : Nat
  subscribedLeads : Nat
  purchasedLeads : Nat
  errorLeads : Nat
  leadsByTag : TagCounts
  leadsBySource : List (String × Nat)
deriving DecidableEq

def zeroMetrics : DashboardMetrics :=
  { totalLeads := 0, newLeads := 0, subscribedLeads := 0, purchasedLeads := 0
    errorLeads := 0, leadsByTag := ⟨0, 0, 0, 0⟩, leadsBySource := [] }

/-- The keys of the `leadsByTag` record in `getMetrics`. -/
def metricsTagKeys : List String :=
  ["general", "reel-fitness", "reel-nutricion", "story-promo"]

/-- `leadsBySource[source] = (leadsBySource[source] || 0) + 1` -/
def bumpSource (m : List (String × Nat)) (k : String) : List (String × Nat) :=
  hset m k ((hget m k).getD 0 + 1)

/-- One iteration of the `for (const lead of leads)` loop of `getMetrics`:
    the `switch` on status, the `lead.tag && lead.tag in leadsByTag` counted
    tag bump (an unknown or empty tag bumps nothing), and the source count
    with the `lead.source || 'unknown'` default. -/
def metricsStep (m : DashboardMetrics) (lead : Lead) : DashboardMetrics :=
  let m :=
    match lead.status with
    | LeadStatus.new => { m with newLeads := m.newLeads + 1 }
    | LeadStatus.subscribed => { m with subscribedLeads := m.subscribedLeads + 1 }
    | LeadStatus.purchased => { m with purchasedLeads := m.purchasedLeads + 1 }
    | LeadStatus.error => { m with errorLeads := m.errorLeads + 1 }
  let m :=
    if lead.tag == "general" then
      { m with leadsByTag := { m.leadsByTag with general := m.leadsByTag.general + 1 } }
    else if lead.tag == "reel-fitness" then
      { m with leadsByTag := { m.leadsByTag with reelFitness := m.leadsByTag.reelFitness + 1 } }
    else if lead.tag == "reel-nutricion" then
      { m with leadsByTag := { m.leadsByTag with reelNutricion := m.leadsByTag.reelNutricion + 1 } }
    else if lead.tag == "story-promo" then
      { m with leadsByTag := { m.leadsByTag with storyPromo := m.leadsByTag.storyPromo + 1 } }
    else m
  let source := if lead.source == "" then "unknown" else lead.source
  { m with leadsBySource := bumpSource m.leadsBySource source }

/-- `getMetrics`: `totalLeads` is set to the number of records up front, then
    a single pass counts statuses, known tags and sources.  A backend error
    is caught and yields the all-zero metrics object. -/
def getMetrics (backendFail : Bool) (s : Store) : DashboardMetrics :=
  if backendFail then zeroMetrics
  else
    let leads := s.leads.map (fun kv => kv.2)
    leads.foldl metricsStep { zeroMetrics with totalLeads := leads.length }

/-- `markLeadAsPurchased`: look up by email; `null` when no lead exists,
    otherwise transition it to `purchased` attaching the order id. -/
def markLeadAsPurchased (s : Store) (email orderId : String) (now : Nat) :
    Option Lead × Store :=
  match getLeadByEmail s email with
  | none => (none, s)
  | some lead =>
      updateLeadStatus s lead.id LeadStatus.purchased (LeadPatch.orderId orderId) now

/-! ## CRM connector (`src/lib/brevo.ts`) -/

/-- The static `TAG_TO_LIST_ID` table of `src/lib/types.ts`; indexing it off
    a key it does not have yields `undefined` (`none`). -/
def TAG_TO_LIST_ID (tag : String) : Option Nat :=
  if tag == "general" then some 1
  else if tag == "reel-fitness" then some 2
  else if tag == "reel-nutricion" then some 3
  else if tag == "story-promo" then some 4
  else none

structure AddContactParams where
  email : String
  name : Option String := none
  phone : Option String := none
  source : Option String := none
  tag : Option String := none
deriving DecidableEq

/-- The outcome of a Brevo API call, as the handlers consume it.  The calls
    themselves are external; handlers receive the outcome as a parameter. -/
structure AddContactResult where
  success : Bool
  contactId : Option Nat := none
  error : Option String := none
deriving DecidableEq

/-- The `CreateContact` request object. -/
structure BrevoCreateContact where
  email : String
  firstName : String
  lastName : String
  phoneAttr : String
  sourceAttr : String
  tagAttr : String
  hasPurchased : Bool
  listIds : List (Option Nat)
  updateEnabled : Bool
deriving DecidableEq

/-- `addContactToBrevo`, modelled up to the point the request is issued: the
    `tag = 'general'` destructuring default (applied only when `tag` is
    absent), the `TAG_TO_LIST_ID[tag]` table lookup, the name split on
    spaces with `|| ''` defaults, and the attribute defaults.  The API
    outcome is external and not part of this definition. -/
def addContactToBrevo (params : AddContactParams) : BrevoCreateContact :=
  let tag := params.tag.getD "general"
  let listId := TAG_TO_LIST_ID tag
  let nameParts :=
    match params.name with
    | some n => jsSplitOnSpace n
    | none => []
  let firstName :=
    match nameParts.head? with
    | some h => if h == "" then "" else h
    | none => ""
  let lastName :=
    let rest := String.intercalate " " (nameParts.drop 1)
    if rest == "" then "" else rest
  { email := params.email, firstName := firstName, lastName := lastName
    phoneAttr := params.phone.getD "", sourceAttr := params.source.getD "instagram"
    tagAttr := tag, hasPurchased := false, listIds := [listId]
    updateEnabled := true }

/-! ## Lead intake handler (`src/app/api/webhook/sheet/route.ts`) -/

/-- The tag whitelist at the top of the sheet route. -/
def VALID_TAGS : List String :=
  ["general", "programa-de", "eyaculacion-precoz", "youtube"]

/-- `request.headers.get('x-api-key') === process.env.API_SECRET_KEY`.
    The header is a string or `null`; the environment variable is a string
    or `undefined`.  Strict equality across those is true only when both
    are strings and equal — in particular a missing header (`null`) never
    equals an unset secret (`undefined`). -/
def validateApiKey (apiKey secret : Option String) : Bool :=
  match apiKey, secret with
  | some a, some s => a == s
  | _, _ => false

/-- The anchored regex `/^[^\s@]+@[^\s@]+\.[^\s@]+$/`: exactly one `@`,
    a nonempty whitespace-free local part, and a whitespace-free domain
    containing a dot that is neither its first nor its last character. -/
def validateEmail (email : String) : Bool :=
  match splitChar '@' email.toList with
  | [locPart, domPart] =>
      !locPart.isEmpty && locPart.all (fun c => !c.isWhitespace)
        && domPart.all (fun c => !c.isWhitespace)
        && ((domPart.drop 1).dropLast.contains '.')
  | _ => false

/-- The normalized payload `validatePayload` returns on success. -/
structure WebhookPayload where
  email : String
  name : Option String
  phone : Option String
  source : String
  tag : String
deriving DecidableEq

/-- The parsed request body, when it is an object: each field as the
    validation code sees it. -/
structure RawBody where
  email : JField := JField.absent
  name : JField := JField.absent
  phone : JField := JField.absent
  source : JField := JField.absent
  tag : JField := JField.absent
deriving DecidableEq

/-- `(payload.tag as string) || 'general'`: absent and falsy values (the
    empty string, or a falsy non-string) default to `general`; a truthy
    non-string value stays non-string (`none` here) and can never be a
    member of `VALID_TAGS`. -/
def jsTagOrDefault : JField → Option String
  | JField.absent => some "general"
  | JField.str t => if t == "" then some "general" else some t
  | JField.nonstr truthy => if truthy then none else some "general"

def tagErrorMessage : String :=
  "Invalid tag. Must be one of: " ++ String.intercalate ", " VALID_TAGS

/-- `validatePayload`.  The argument is `none` when the parsed body is
    falsy or not an object. -/
def validatePayload (data : Option RawBody) : Except String WebhookPayload :=
  match data with
  | none => Except.error "Invalid payload"
  | some payload =>
    match payload.email with
    | JField.absent => Except.error "Email is required"
    | JField.nonstr _ => Except.error "Email is required"
    | JField.str e =>
      if e == "" then Except.error "Email is required"
      else if !validateEmail e then Except.error "Invalid email format"
      else
        match jsTagOrDefault payload.tag with
        | none => Except.error tagErrorMessage
        | some tag =>
          if !(VALID_TAGS.contains tag) then Except.error tagErrorMessage
          else
            Except.ok
              { email := jsTrim (jsToLower e)
                name := match payload.name with
                  | JField.str s => some (jsTrim s)
                  | _ => none
                phone := match payload.phone with
                  | JField.str s => some (jsTrim s)
                  | _ => none
                source := match payload.source with
                  | JField.str s => jsTrim s
                  | _ => "instagram"
                tag := tag }

/-- Result of a run of the sheet-route `POST`: the HTTP status, the `error`
    and `leadId` response fields, the store afterwards, and a record of the
    arguments of the `addContactToBrevo` call when one was made. -/
structure SheetResult where
  status : Nat
  error : Option String
  leadId : Option String
  store : Store
  brevoCalled : Option AddContactParams
deriving DecidableEq

/-- The sheet-route `POST`.  `body` is the result of `request.json()`
    (`none` = the parse threw, `some none` = parsed but falsy or not an
    object).  `brevo` is the outcome of the `addContactToBrevo` call;
    `freshId` and `now` feed `generateId` and the clock. -/
def sheetPOST (apiKey secret : Option String) (body : Option (Option RawBody))
    (brevo : AddContactResult) (freshId : String) (now : Nat) (s : Store) :
    SheetResult :=
  if !(validateApiKey apiKey secret) then
    { status := 401, error := some "Invalid or missing API key"
      leadId := none, store := s, brevoCalled := none }
  else
    match body with
    | none =>
        { status := 400, error := some "Could not parse request body"
          leadId := none, store := s, brevoCalled := none }
    | some data =>
      match validatePayload data with
      | Except.error e =>
          { status := 400, error := some e, leadId := none, store := s
            brevoCalled := none }
      | Except.ok p =>
        let existing := getLeadByEmail s p.email
        let leadAndStore : Lead × Store :=
          match existing with
          | some l => (l, s)
          | none =>
              saveLead s
                { email := p.email, name := p.name, phone := p.phone
                  source := if p.source == "" then "instagram" else p.source
                  tag := if p.tag == "" then "general" else p.tag }
                freshId now
        let lead := leadAndStore.1
        let s1 := leadAndStore.2
        let called : Option AddContactParams :=
          some { email := p.email, name := p.name, phone := p.phone
                 source := some p.source, tag := some p.tag }
        if brevo.success then
          let upd := updateLeadStatus s1 lead.id LeadStatus.subscribed
            (LeadPatch.brevoId brevo.contactId) now
          { status := 200, error := none, leadId := some lead.id
            store := upd.2, brevoCalled := called }
        else
          let upd := updateLeadStatus s1 lead.id LeadStatus.error
            LeadPatch.noPatch now
          { status := 500, error := brevo.error, leadId := some lead.id
            store := upd.2, brevoCalled := called }

/-! ## Purchase intake handler (`src/app/api/webhook/woocommerce/route.ts`) -/

/-- `verifyWooCommerceSignature`: no header → invalid; otherwise compare the
    supplied signature against the base64 HMAC-SHA256 digest of the raw
    body, returning `false` outright on a byte-length mismatch and the
    constant-time byte comparison otherwise.  `hmacB64 secret payload`
    abstracts `crypto.createHmac('sha256', secret).update(payload,
    'utf8').digest('base64')`; `timingSafeEqual` on equal-length UTF-8
    buffers is equality of the strings. -/
def verifyWooCommerceSignature (hmacB64 : String → String → String)
    (payload : String) (signature : Option String) (secret : String) : Bool :=
  match signature with
  | none => false
  | some sig =>
    let expected := hmacB64 secret payload
    if sig.utf8ByteSize ≠ expected.utf8ByteSize then false
    else sig == expected

structure LineItem where
  product_id : Int
  name : String
  quantity : Int
deriving DecidableEq

/-- The billing sub-object of the parsed JSON body: `email` is `none` when
    absent or not a string, which makes `parseOrder` fail. -/
structure RawBilling where
  email : Option String := none
  first_name : Option String := none
  last_name : Option String := none
  phone : Option String := none
deriving DecidableEq

/-- The parsed JSON body of a purchase webhook, when it is an object.  A
    field is `none` when absent or of the wrong type. -/
structure RawOrder where
  id : Option Int := none
  status : Option String := none
  billing : Option RawBilling := none
  line_items : Option (List LineItem) := none
  total : Option String := none
  currency : Option String := none
  date_created : Option String := none
deriving DecidableEq

structure WooBilling where
  email : String
  first_name : String
  last_name : String
  phone : Option String
deriving DecidableEq

structure WooCommerceOrder where
  id : Int
  status : String
  billing : WooBilling
  line_items : List LineItem
  total : String
  currency : String
  date_created : String
deriving DecidableEq

/-- `(x as string) || d` for a string-valued optional field. -/
def jsOrDefault (o : Option String) (d : String) : String :=
  match o with
  | some s => if s == "" then d else s
  | none => d

/-- `parseOrder`: requires a numeric `id`, string `status` and a `billing`
    object with a string `email`; everything else is defaulted.  `nowIso`
    stands for `new Date().toISOString()`. -/
def parseOrder (data : Option RawOrder) (nowIso : String) :
    Option WooCommerceOrder :=
  match data with
  | none => none
  | some order =>
    match order.id, order.status, order.billing with
    | some id, some status, some billing =>
      match billing.email with
      | some email =>
        some
          { id := id, status := status
            billing :=
              { email := email
                first_name := jsOrDefault billing.first_name ""
                last_name := jsOrDefault billing.last_name ""
                phone := billing.phone }
            line_items := order.line_items.getD []
            total := jsOrDefault order.total "0"
            currency := jsOrDefault order.currency "USD"
            date_created := jsOrDefault order.date_created nowIso }
      | none => none
    | _, _, _ => none

/-- Result of a run of the WooCommerce `POST`: status, response message, the
    store afterwards, and the arguments of the `markAsPurchased` (Brevo) and
    `markLeadAsPurchased` (store) calls when they were made. -/
structure WooResult where
  status : Nat
  message : String
  store : Store
  brevoCall : Option (String × String)
  markLeadCall : Option (String × String)
deriving DecidableEq

/-- The WooCommerce-route `POST`.  `secret` is
    `process.env.WOOCOMMERCE_WEBHOOK_SECRET`; `parsedJson` is the result of
    `JSON.parse(rawBody)` (`none` = the parse threw, `some none` = parsed
    but not an object); `brevoMark` is the outcome of the external
    `markAsPurchased` call. -/
def wooPOST (hmacB64 : String → String → String) (secret : Option String)
    (rawBody : String) (signature : Option String)
    (parsedJson : Option (Option RawOrder)) (brevoMark : AddContactResult)
    (nowIso : String) (now : Nat) (s : Store) : WooResult :=
  match secret with
  | none =>
      { status := 500, message := "Server configuration error", store := s
        brevoCall := none, markLeadCall := none }
  | some sec =>
    if !(verifyWooCommerceSignature hmacB64 rawBody signature sec) then
      { status := 401, message := "Unauthorized", store := s
        brevoCall := none, markLeadCall := none }
    else
      match parsedJson with
      | none =>
          { status := 400, message := "Invalid JSON", store := s
            brevoCall := none, markLeadCall := none }
      | some data =>
        match parseOrder data nowIso with
        | none =>
            { status := 400, message := "Invalid order data", store := s
              brevoCall := none, markLeadCall := none }
        | some order =>
          if order.status ≠ "completed" then
            let oid := toString order.id
            let st := order.status
            { status := 200
              message := s!"Order {oid} status is \"{st}\", skipping (only \"completed\" orders are processed)"
              store := s, brevoCall := none, markLeadCall := none }
          else
            let email := jsTrim (jsToLower order.billing.email)
            let orderId := toString order.id
            let upd := markLeadAsPurchased s email orderId now
            if brevoMark.success then
              { status := 200
                message := s!"Order {orderId} processed - {email} marked as purchased"
                store := upd.2, brevoCall := some (email, orderId)
                markLeadCall := some (email, orderId) }
            else
              { status := 200
                message := s!"Order {orderId} processed with warning: Brevo update failed"
                store := upd.2, brevoCall := some (email, orderId)
                markLeadCall := some (email, orderId) }

/-! ## Lead listing endpoint (`src/app/api/leads/route.ts`) -/

structure LeadsGETResult where
  status : Nat
  leads : List Lead
  count : Nat
  metrics : Option DashboardMetrics
deriving DecidableEq

/-- The leads-route `GET`: API-key check, query parameters (`limit` and
    `offset` arrive already parsed; absent ones take the `'100'`/`'0'`
    defaults of the `parseInt(… || d)` calls; an empty-string `status` or
    `tag` parameter is falsy and drops the filter), then `getLeads` and
    optionally `getMetrics`.  Neither storage call can throw — each catches
    backend errors internally — so the route's own 500 path is unreachable
    from backend failure. -/
def leadsGET (backendFail : Bool) (apiKey secret : Option String)
    (statusParam : Option LeadStatus) (tagParam : Option String)
    (limitParam offsetParam : Option Nat) (includeMetrics : Bool)
    (s : Store) : LeadsGETResult :=
  if !(validateApiKey apiKey secret) then
    { status := 401, leads := [], count := 0, metrics := none }
  else
    let tagArg : Option String :=
      match tagParam with
      | some t => if t == "" then none else some t
      | none => none
    let leads := getLeads backendFail s
      { status := statusParam, tag := tagArg
        limit := some (limitParam.getD 100), offset := some (offsetParam.getD 0) }
    { status := 200, leads := leads, count := leads.length
      metrics := if includeMetrics then some (getMetrics backendFail s) else none }

/-! ## Spec-side reference definition for the listing claim -/

/-- The listing pipeline exactly as §4.1 of the specification words it:
    apply the equality filters, sort by `createdAt` descending, then slice
    `[offset, offset + limit)` with the given limit and offset unchanged. -/
def listPerSpec (s : Store) (status : Option LeadStatus) (tag : Option String)
    (limit offset : Nat) : List Lead :=
  let leads := s.leads.map (fun kv => kv.2)
  let leads :=
    match status with
    | some st => leads.filter (fun l => l.status == st)
    | none => leads
  let leads :=
    match tag with
    | some t => leads.filter (fun l => l.tag == t)
    | none => leads
  ((sortByCreatedAtDesc leads).drop offset).take limit

/-! ## Derived counting helpers and concrete fixtures -/

/-- Sum of the per-status counters of a metrics object. -/
def statusSum (m : DashboardMetrics) : Nat :=
  m.newLeads + m.subscribedLeads + m.purchasedLeads + m.errorLeads

/-- Sum of the four zero-filled per-tag counters of a metrics object. -/
def tagSum (m : DashboardMetrics) : Nat :=
  m.leadsByTag.general + m.leadsByTag.reelFitness
    + m.leadsByTag.reelNutricion + m.leadsByTag.storyPromo

/-- A lead already marked as purchased, stored under id `lead_1`. -/
def purchasedLead : Lead :=
  { id := "lead_1", email := "a@b.c", name := none, phone := none
    source := "instagram", tag := "general", status := LeadStatus.purchased
    brevoContactId := none, woocommerceOrderId := some "77"
    createdAt := 0, updatedAt := 0 }

/-- A store holding exactly `purchasedLead`, with its email indexed. -/
def purchasedStore : Store :=
  { leads := [("lead_1", purchasedLead)]
    emailIndex := [("a@b.c", "lead_1")] }

/-- A lead whose tag `youtube` is in the intake whitelist `VALID_TAGS` but
    not among the keys `getMetrics` zero-fills. -/
def youtubeLead : Lead :=
  { id := "lead_y", email := "y@b.c", name := none, phone := none
    source := "instagram", tag := "youtube", status := LeadStatus.new
    brevoContactId := none, woocommerceOrderId := none
    createdAt := 0, updatedAt := 0 }

def youtubeStore : Store :=
  { leads := [("lead_y", youtubeLead)], emailIndex := [("y@b.c", "lead_y")] }

/-- A parsed JSON body for a completed WooCommerce order. -/
def completedRawOrder : RawOrder :=
  { id := some 12345
    status := some "completed"
    billing := some { email := some "A@B.c" } }

/-- What `parseOrder` produces from `completedRawOrder` under clock `iso`. -/
def completedOrder : WooCommerceOrder :=
  { id := 12345
    status := "completed"
    billing := { email := "A@B.c", first_name := "", last_name := "", phone := none }
    line_items := []
    total := "0"
    currency := "USD"
    date_created := "iso" }

/-! ## Hash-primitive lemmas -/

section KVLemmas

variable {α : Type}

theorem hget_hset_self (m : List (String × α)) (k : String) (v : α) :
    hget (hset m k v) k = some v := by
  induction m with
  | nil => simp [hget, hset]
  | cons kv rest ih =>
    cases h : kv.1 == k with
    | true => simp [hget, hset, h]
    | false => simp [hget, hset, h, ih]

theorem hset_hset_self (m : List (String × α)) (k : String) (v w : α) :
    hset (hset m k v) k w = hset m k w := by
  induction m with
  | nil => simp [hset]
  | cons kv rest ih =>
    cases h : kv.1 == k with
    | true => simp [hset, h]
    | false => simp [hset, h, ih]

theorem hget_eq_none_iff (m : List (String × α)) (k : String) :
    hget m k = none ↔ ∀ kv ∈ m, kv.1 ≠ k := by
  induction m with
  | nil => simp [hget]
  | cons kv rest ih =>
    cases h : kv.1 == k with
    | true =>
      simp only [hget, h, if_true]
      simp only [beq_iff_eq] at h
      simp [h]
    | false =>
      simp only [hget, h, if_false, Bool.false_eq_true, ite_false]
      simp only [beq_eq_false_iff_ne] at h
      simp [ih, h]

theorem hset_eq_append {m : List (String × α)} {k : String}
    (h : hget m k = none) (v : α) : hset m k v = m ++ [(k, v)] := by
  induction m with
  | nil => simp [hset]
  | cons kv rest ih =>
    rw [hget_eq_none_iff] at h
    have hk : kv.1 ≠ k := h kv (by simp)
    have hrest : hget rest k = none := by
      rw [hget_eq_none_iff]
      intro x hx
      exact h x (by simp [hx])
    simp [hset, hk, ih hrest]

theorem hget_append_left_none {m : List (String × α)} {k : String}
    (h : hget m k = none) (m2 : List (String × α)) :
    hget (m ++ m2) k = hget m2 k := by
  induction m with
  | nil => simp
  | cons kv rest ih =>
    rw [hget_eq_none_iff] at h
    have hk : kv.1 ≠ k := h kv (by simp)
    have hrest : hget rest k = none := by
      rw [hget_eq_none_iff]
      intro x hx
      exact h x (by simp [hx])
    simp [hget, hk, ih hrest]

theorem hset_append_single {m : List (String × α)} {k : String}
    (h : hget m k = none) (v w : α) : hset (m ++ [(k, v)]) k w = m ++ [(k, w)] := by
  induction m with
  | nil => simp [hset]
  | cons kv rest ih =>
    rw [hget_eq_none_iff] at h
    have hk : kv.1 ≠ k := h kv (by simp)
    have hrest : hget rest k = none := by
      rw [hget_eq_none_iff]
      intro x hx
      exact h x (by simp [hx])
    simp [hset, hk, ih hrest]

end KVLemmas

/-! ## Patch lemmas -/

theorem applyPatch_id (l : Lead) (p : LeadPatch) (st : LeadStatus) (n : Nat) :
    (l.applyPatch p st n).id = l.id := by
  cases p <;> rfl

theorem applyPatch_email (l : Lead) (p : LeadPatch) (st : LeadStatus) (n : Nat) :
    (l.applyPatch p st n).email = l.email := by
  cases p <;> rfl

theorem applyPatch_status (l : Lead) (p : LeadPatch) (st : LeadStatus) (n : Nat) :
    (l.applyPatch p st n).status = st := by
  cases p <;> rfl

/-! ## Characterizations of the intake `POST` paths -/

theorem sheetPOST_existing_spec (apiKey secret : Option String)
    (data : Option RawBody) (p : WebhookPayload) (brevo : AddContactResult)
    (freshId : String) (now : Nat) (s : Store) (l : Lead)
    (hauth : validateApiKey apiKey secret = true)
    (hval : validatePayload data = Except.ok p)
    (hlook : getLeadByEmail s p.email = some l) :
    sheetPOST apiKey secret (some data) brevo freshId now s =
      { status := if brevo.success then 200 else 500
        error := if brevo.success then none else brevo.error
        leadId := some l.id
        store := (updateLeadStatus s l.id
          (if brevo.success then LeadStatus.subscribed else LeadStatus.error)
          (if brevo.success then LeadPatch.brevoId brevo.contactId
            else LeadPatch.noPatch) now).2
        brevoCalled := some { email := p.email, name := p.name, phone := p.phone
                              source := some p.source, tag := some p.tag } } := by
  cases hb : brevo.success <;>
    simp [sheetPOST, hauth, hval, hlook, hb]

theorem sheetPOST_create_spec (apiKey secret : Option String)
    (data : Option RawBody) (p : WebhookPayload) (brevo : AddContactResult)
    (freshId : String) (now : Nat) (s : Store)
    (hauth : validateApiKey apiKey secret = true)
    (hval : validatePayload data = Except.ok p)
    (hlook : getLeadByEmail s p.email = none) :
    sheetPOST apiKey secret (some data) brevo freshId now s =
      { status := if brevo.success then 200 else 500
        error := if brevo.success then none else brevo.error
        leadId := some freshId
        store := (updateLeadStatus
          (saveLead s
            { email := p.email, name := p.name, phone := p.phone
              source := if p.source == "" then "instagram" else p.source
              tag := if p.tag == "" then "general" else p.tag }
            freshId now).2 freshId
          (if brevo.success then LeadStatus.subscribed else LeadStatus.error)
          (if brevo.success then LeadPatch.brevoId brevo.contactId
            else LeadPatch.noPatch) now).2
        brevoCalled := some { email := p.email, name := p.name, phone := p.phone
                              source := some p.source, tag := some p.tag } } := by
  cases hb : brevo.success <;>
    simp [sheetPOST, hauth, hval, hlook, hb, saveLead]

/-! ## The claims -/

/-- C3: `verifyWooCommerceSignature` returns `true` exactly when a signature
    is present and equals the base64 HMAC-SHA256 digest of the raw body
    under the secret (`hmacB64`); a missing signature is `false`
    unconditionally, and a supplied signature of differing byte length
    falls under the right-to-left direction (it cannot equal the digest),
    returning `false` without an error — the function is total. -/
theorem signature_verification_iff (hmacB64 : String → String → String)
    (payload secret : String) (sig : Option String) :
    verifyWooCommerceSignature hmacB64 payload sig secret = true ↔
      sig = some (hmacB64 secret payload) := by
  cases sig with
  | none => simp [verifyWooCommerceSignature]
  | some s =>
    rcases eq_or_ne s (hmacB64 secret payload) with hs | hs
    · subst hs; simp [verifyWooCommerceSignature]
    · simp only [verifyWooCommerceSignature, Option.some.injEq]
      split
      · simp [hs]
      · simp [hs]

/-- C10: when the server-side API secret is unset (`undefined`), both the
    lead-intake `POST` and the lead-listing `GET` respond 401 for every
    request — a missing `x-api-key` header (`null`) included — because the
    strict equality `header === secret` never holds against `undefined`. -/
theorem unset_secret_fails_closed (apiKey : Option String)
    (body : Option (Option RawBody)) (brevo : AddContactResult)
    (freshId : String) (now : Nat) (s : Store) (backendFail : Bool)
    (st : Option LeadStatus) (tg : Option String) (lim off : Option Nat)
    (im : Bool) (s2 : Store) :
    (sheetPOST apiKey none body brevo freshId now s).status = 401 ∧
      (leadsGET backendFail apiKey none st tg lim off im s2).status = 401 := by
  have h : validateApiKey apiKey none = false := by
    cases apiKey <;> rfl
  constructor
  · simp [sheetPOST, h]
  · simp [leadsGET, h]

/-- C5 counterexample: an explicitly supplied tag that is not a key of
    `TAG_TO_LIST_ID` does NOT fall back to the `general` list id — the
    request carries `[undefined]` as its list ids, not the table's
    `general` entry. -/
theorem unknown_tag_no_fallback_counterexample :
    (addContactToBrevo { email := "user@mail.com", tag := some "vip" }).listIds
        = [none] ∧
      (addContactToBrevo { email := "user@mail.com", tag := some "vip" }).listIds
        ≠ [TAG_TO_LIST_ID "general"] := by
  decide

/-- C5 amended: only an absent tag falls back to the table's `general`
    entry (list id 1) via the destructuring default; an explicitly supplied
    tag that is not a key of the table yields an undefined (`none`) list
    identifier in the request. -/
theorem unknown_tag_fallback_amended (params : AddContactParams) :
    (params.tag = none →
        (addContactToBrevo params).listIds = [TAG_TO_LIST_ID "general"]) ∧
      (∀ t, params.tag = some t → TAG_TO_LIST_ID t = none →
        (addContactToBrevo params).listIds = [none]) := by
  constructor
  · intro h
    simp [addContactToBrevo, h]
  · intro t h ht
    simp [addContactToBrevo, h, ht]

/-- C5 witness: the amended theorem evaluated at an absent tag and at the
    unknown tag `vip`. -/
theorem unknown_tag_fallback_witness :
    (addContactToBrevo { email := "a@b.c" }).listIds = [TAG_TO_LIST_ID "general"] ∧
      (addContactToBrevo { email := "a@b.c", tag := some "vip" }).listIds = [none] :=
  ⟨(unknown_tag_fallback_amended { email := "a@b.c" }).1 rfl,
    (unknown_tag_fallback_amended { email := "a@b.c", tag := some "vip" }).2
      "vip" rfl rfl⟩

/-- C6 counterexample: with the storage backend failing, an authenticated
    listing `GET` over a non-empty store responds 200 with an empty lead
    list — not the 500 the claim requires. -/
theorem backend_failure_not_500_counterexample :
    (leadsGET true (some "k") (some "k") none none none none false
        purchasedStore).status = 200 ∧
      (leadsGET true (some "k") (some "k") none none none none false
        purchasedStore).leads = [] := by
  decide

/-- C6 amended: `getLeads` catches the backend error and returns the empty
    list, so an authenticated listing `GET` under backend failure responds
    200 carrying an empty lead list; the route's 500 path is not reached by
    a storage-backend failure. -/
theorem backend_failure_yields_200_empty (apiKey secret : Option String)
    (st : Option LeadStatus) (tg : Option String) (lim off : Option Nat)
    (im : Bool) (s : Store)
    (hauth : validateApiKey apiKey secret = true) :
    (leadsGET true apiKey secret st tg lim off im s).status = 200 ∧
      (leadsGET true apiKey secret st tg lim off im s).leads = [] := by
  simp [leadsGET, hauth, getLeads]

/-- C6 witness: the amended theorem evaluated at a matching key over a
    non-empty store. -/
theorem backend_failure_yields_200_empty_witness :
    (leadsGET true (some "sk") (some "sk") none none none none true
        purchasedStore).status = 200 ∧
      (leadsGET true (some "sk") (some "sk") none none none none true
        purchasedStore).leads = [] :=
  backend_failure_yields_200_empty (some "sk") (some "sk") none none none none
    true purchasedStore (by decide)

/-- C7 counterexample: an explicitly supplied empty-string tag is not one of
    the enum values, yet the handler does not respond 400 — the falsy value
    is silently defaulted to `general` and the request succeeds. -/
theorem intake_tag_validation_counterexample :
    (sheetPOST (some "k") (some "k")
        (some (some { email := JField.str "a@b.c", tag := JField.str "" }))
        { success := true } "id1" 0 emptyStore).status = 200 ∧
      ¬("" ∈ VALID_TAGS) := by
  decide

/-- C7 amended: with a valid API key and a body whose email is a valid
    string, an absent tag is accepted with the tag defaulted to `general`,
    and an explicitly supplied non-empty tag string outside the enum yields
    a 400 whose error message names the tag field, with no CRM call and no
    store write; an explicitly supplied falsy tag (the empty string) is
    instead treated like an absent one and defaults to `general`. -/
theorem intake_tag_validation_amended (apiKey secret : Option String)
    (b : RawBody) (brevo : AddContactResult) (freshId : String) (now : Nat)
    (s : Store) (e : String)
    (hauth : validateApiKey apiKey secret = true)
    (hemail : b.email = JField.str e) (hne : e ≠ "")
    (hre : validateEmail e = true) :
    (b.tag = JField.absent →
        ∃ p, validatePayload (some b) = Except.ok p ∧ p.tag = "general") ∧
      (∀ t, b.tag = JField.str t → t ≠ "" → ¬(t ∈ VALID_TAGS) →
        sheetPOST apiKey secret (some (some b)) brevo freshId now s =
          { status := 400, error := some tagErrorMessage, leadId := none
            store := s, brevoCalled := none }) := by
  constructor
  · intro htag
    have hv : validatePayload (some b) = Except.ok
        { email := jsTrim (jsToLower e)
          name := match b.name with | JField.str s => some (jsTrim s) | _ => none
          phone := match b.phone with | JField.str s => some (jsTrim s) | _ => none
          source := match b.source with | JField.str s => jsTrim s | _ => "instagram"
          tag := "general" } := by
      simp [validatePayload, hemail, hne, hre, htag, jsTagOrDefault]
      decide
    exact ⟨_, hv, rfl⟩
  · intro t htag hne2 hmem
    have hv : validatePayload (some b) = Except.error tagErrorMessage := by
      simp [validatePayload, hemail, hne, hre, htag, jsTagOrDefault, hne2, hmem]
    simp [sheetPOST, hauth, hv]

/-- C7 witness: the amended theorem evaluated at an absent tag and at the
    explicitly supplied unknown tag `bogus`. -/
theorem intake_tag_validation_witness :
    (∃ p, validatePayload (some ({ email := JField.str "a@b.c" } : RawBody))
        = Except.ok p ∧ p.tag = "general") ∧
      sheetPOST (some "k") (some "k")
          (some (some { email := JField.str "a@b.c", tag := JField.str "bogus" }))
          { success := true } "id1" 0 emptyStore =
        { status := 400, error := some tagErrorMessage, leadId := none
          store := emptyStore, brevoCalled := none } :=
  ⟨(intake_tag_validation_amended (some "k") (some "k")
      { email := JField.str "a@b.c" } { success := true } "id1" 0 emptyStore
      "a@b.c" (by decide) rfl (by decide) (by decide)).1 rfl,
    (intake_tag_validation_amended (some "k") (some "k")
      { email := JField.str "a@b.c", tag := JField.str "bogus" }
      { success := true } "id1" 0 emptyStore
      "a@b.c" (by decide) rfl (by decide) (by decide)).2 "bogus" rfl
      (by decide) (by decide)⟩

/-- C8 counterexample: a filter with `limit = 0` is not applied unchanged —
    the falsy-default `options?.limit || 100` replaces it by 100, so the
    call returns a lead where the spec's slice `[0, 0)` is empty. -/
theorem listing_pagination_counterexample :
    getLeads false purchasedStore
        { status := none, tag := none, limit := some 0, offset := some 0 }
        = [purchasedLead] ∧
      listPerSpec purchasedStore none none 0 0 = [] := by
  decide

/-- C8 amended: for every store, every status/tag equality filter (with any
    supplied tag filter a non-empty string, as every actual tag is) and
    every offset `O` and non-zero limit `L`, `getLeads` returns exactly the
    slice `[O, O + L)` of the filtered sequence sorted by `createdAt`
    descending; a zero limit is instead replaced by the default 100. -/
theorem listing_pagination_amended (s : Store) (st : Option LeadStatus)
    (tg : Option String) (L O : Nat) (hL : L ≠ 0)
    (htg : ∀ t, tg = some t → t ≠ "") :
    getLeads false s { status := st, tag := tg, limit := some L, offset := some O }
      = listPerSpec s st tg L O := by
  cases tg with
  | none => simp [getLeads, listPerSpec, hL]
  | some t =>
    have ht : t ≠ "" := htg t rfl
    simp [getLeads, listPerSpec, hL, ht]

/-- C8 witness: the amended theorem evaluated at `limit = 50`,
    `offset = 10` over a concrete store (both sides empty there), and the
    sliced call at `limit = 1`, `offset = 0`. -/
theorem listing_pagination_witness :
    getLeads false purchasedStore
        { status := none, tag := none, limit := some 50, offset := some 10 }
      = listPerSpec purchasedStore none none 50 10 :=
  listing_pagination_amended purchasedStore none none 50 10 (by decide)
    (by intro t h; cases h)

/-! ## Counting lemmas for the metrics pass -/

theorem metrics_foldl_inv (f : DashboardMetrics → Nat)
    (hstep : ∀ m l, f (metricsStep m l) = f m) :
    ∀ (ls : List Lead) (m0 : DashboardMetrics),
      f (ls.foldl metricsStep m0) = f m0 := by
  intro ls
  induction ls with
  | nil => intro m0; simp
  | cons x xs ih =>
    intro m0
    simp only [List.foldl_cons, ih, hstep]

theorem metrics_foldl_count (f : DashboardMetrics → Nat) (g : Lead → Nat)
    (hstep : ∀ m l, f (metricsStep m l) = f m + g l) :
    ∀ (ls : List Lead) (m0 : DashboardMetrics),
      f (ls.foldl metricsStep m0) = f m0 + (ls.map g).sum := by
  intro ls
  induction ls with
  | nil => intro m0; simp
  | cons x xs ih =>
    intro m0
    simp only [List.foldl_cons, List.map_cons, List.sum_cons, ih, hstep]
    omega

theorem metricsStep_totalLeads (m : DashboardMetrics) (l : Lead) :
    (metricsStep m l).totalLeads = m.totalLeads := by
  simp only [metricsStep]
  cases l.status <;> split_ifs <;> rfl

theorem metricsStep_statusSum (m : DashboardMetrics) (l : Lead) :
    statusSum (metricsStep m l) = statusSum m + 1 := by
  simp only [metricsStep, statusSum]
  cases l.status <;> split_ifs <;> simp <;> omega

theorem metricsStep_tagSum (m : DashboardMetrics) (l : Lead) :
    tagSum (metricsStep m l) =
      tagSum m + (if l.tag ∈ metricsTagKeys then 1 else 0) := by
  simp only [metricsStep, tagSum, metricsTagKeys]
  cases l.status <;> split_ifs with h1 h2 h3 h4 <;>
    simp_all [List.mem_cons] <;> omega

theorem sum_map_all_one (g : Lead → Nat) :
    ∀ (ls : List Lead), (∀ x ∈ ls, g x = 1) → (ls.map g).sum = ls.length := by
  intro ls
  induction ls with
  | nil => intro _; simp
  | cons x xs ih =>
    intro h
    simp only [List.map_cons, List.sum_cons, List.length_cons,
      h x (by simp), ih (fun y hy => h y (by simp [hy]))]
    omega

/-- C9 counterexample: a store holding one lead whose tag `youtube` is in
    the declared set the intake handler validates against (`VALID_TAGS`),
    yet the per-tag counts of `getMetrics` — zero-filled over a different
    key set — sum to 0, not to the store size 1. -/
theorem metrics_aggregation_counterexample :
    (getMetrics false youtubeStore).totalLeads = 1 ∧
      tagSum (getMetrics false youtubeStore) = 0 ∧
      youtubeLead.tag ∈ VALID_TAGS := by
  decide

/-- C9 amended: for every store of N leads, `getMetrics` returns
    `totalLeads = N`, per-status counts over new/subscribed/purchased/error
    summing to N, per-source counts as an open mapping, and per-tag counts
    zero-filled over the keys general, reel-fitness, reel-nutricion,
    story-promo that sum to N whenever every stored lead's tag lies in THAT
    key set — which differs from the tag set the intake handler validates
    against, so leads with the intake tags programa-de, eyaculacion-precoz
    or youtube are not counted by tag. -/
theorem metrics_aggregation_amended (s : Store) :
    (getMetrics false s).totalLeads = s.leads.length ∧
      statusSum (getMetrics false s) = s.leads.length ∧
      ((∀ kv ∈ s.leads, (kv.2).tag ∈ metricsTagKeys) →
        tagSum (getMetrics false s) = s.leads.length) := by
  refine ⟨?_, ?_, ?_⟩
  · simp only [getMetrics, Bool.false_eq_true, if_false]
    rw [metrics_foldl_inv (fun m => m.totalLeads) metricsStep_totalLeads]
    simp
  · simp only [getMetrics, Bool.false_eq_true, if_false]
    rw [metrics_foldl_count statusSum (fun _ => 1) metricsStep_statusSum]
    rw [sum_map_all_one (fun _ => 1) _ (fun x _ => rfl)]
    simp [statusSum, zeroMetrics]
  · intro hall
    have hone : ∀ x ∈ s.leads.map (fun kv => kv.2),
        (if x.tag ∈ metricsTagKeys then 1 else 0) = 1 := by
      intro x hx
      rcases List.mem_map.mp hx with ⟨kv, hkv, rfl⟩
      simp [hall kv hkv]
    simp only [getMetrics, Bool.false_eq_true, if_false]
    rw [metrics_foldl_count tagSum
      (fun l => if l.tag ∈ metricsTagKeys then 1 else 0) metricsStep_tagSum]
    rw [sum_map_all_one _ _ hone]
    simp [tagSum, zeroMetrics]

/-- C9 witness: the amended theorem at a concrete two-lead store whose tags
    are both among the metrics keys. -/
theorem metrics_aggregation_witness :
    (getMetrics false purchasedStore).totalLeads = purchasedStore.leads.length ∧
      statusSum (getMetrics false purchasedStore) = purchasedStore.leads.length ∧
      tagSum (getMetrics false purchasedStore) = purchasedStore.leads.length :=
  ⟨(metrics_aggregation_amended purchasedStore).1,
    (metrics_aggregation_amended purchasedStore).2.1,
    (metrics_aggregation_amended purchasedStore).2.2 (by decide)⟩

/-- C1 counterexample: a repeated lead-intake `POST` for the email of a lead
    whose status is `purchased` changes that status to `subscribed` when the
    CRM call succeeds — a transition out of `purchased` that the claim says
    never happens. -/
theorem status_monotonicity_counterexample :
    (getLeadById purchasedStore "lead_1").map (fun l => l.status)
        = some LeadStatus.purchased ∧
      (getLeadById (sheetPOST (some "k") (some "k")
          (some (some { email := JField.str "a@b.c" }))
          { success := true, contactId := some 5 } "lead_2" 1
          purchasedStore).store "lead_1").map (fun l => l.status)
        = some LeadStatus.subscribed := by
  decide

/-- C1 amended: `updateLeadStatus` enforces no monotonicity — a lead-intake
    `POST` for the email of an existing lead overwrites its status with
    `subscribed` (CRM success) or `error` (CRM failure) regardless of the
    prior status, `purchased` included; the handler responds 200
    respectively 500.  (Creation still starts at `new`, and a completed
    purchase sets `purchased` from any prior status.) -/
theorem status_monotonicity_amended (apiKey secret : Option String)
    (data : Option RawBody) (p : WebhookPayload) (brevo : AddContactResult)
    (freshId : String) (now : Nat) (s : Store) (l : Lead)
    (hauth : validateApiKey apiKey secret = true)
    (hval : validatePayload data = Except.ok p)
    (hlook : getLeadByEmail s p.email = some l)
    (hself : hget s.leads l.id = some l) :
    (getLeadById (sheetPOST apiKey secret (some data) brevo freshId now s).store
          l.id).map (fun x => x.status)
        = some (if brevo.success then LeadStatus.subscribed else LeadStatus.error) ∧
      (sheetPOST apiKey secret (some data) brevo freshId now s).status
        = (if brevo.success then 200 else 500) := by
  rw [sheetPOST_existing_spec apiKey secret data p brevo freshId now s l hauth
    hval hlook]
  refine ⟨?_, rfl⟩
  simp [getLeadById, updateLeadStatus, hself, hget_hset_self, applyPatch_status]

/-- C1 witness: the amended theorem run against the store holding a
    `purchased` lead, with a successful CRM outcome. -/
theorem status_monotonicity_witness :
    (getLeadById (sheetPOST (some "k") (some "k")
          (some (some { email := JField.str "a@b.c" }))
          { success := true, contactId := some 5 } "lead_2" 1
          purchasedStore).store "lead_1").map (fun x => x.status)
        = some LeadStatus.subscribed ∧
      (sheetPOST (some "k") (some "k")
          (some (some { email := JField.str "a@b.c" }))
          { success := true, contactId := some 5 } "lead_2" 1
          purchasedStore).status = 200 :=
  status_monotonicity_amended (some "k") (some "k")
    (some { email := JField.str "a@b.c" })
    { email := "a@b.c", name := none, phone := none, source := "instagram"
      tag := "general" }
    { success := true, contactId := some 5 } "lead_2" 1 purchasedStore
    purchasedLead rfl rfl rfl rfl

/-- C4: for every validly signed purchase request whose order parses with
    status exactly `completed`, the handler records the store transition
    `markLeadAsPurchased(normalized email, order id)` regardless of the CRM
    outcome, also invokes the CRM `markAsPurchased` with the same
    arguments, and responds 200 even when the CRM call failed, the failure
    reduced to a warning inside the success message; nothing in the
    hypotheses requires a matching Lead record to exist
    (`markLeadAsPurchased` returns `null` then), so a missing record does
    not change the 200 outcome. -/
theorem purchase_degradation_to_warning (hm : String → String → String)
    (sec rawBody : String) (sig : Option String) (raw : Option RawOrder)
    (order : WooCommerceOrder) (brevoMark : AddContactResult)
    (nowIso : String) (now : Nat) (s : Store)
    (hsig : verifyWooCommerceSignature hm rawBody sig sec = true)
    (hparse : parseOrder raw nowIso = some order)
    (hcomp : order.status = "completed") :
    (wooPOST hm (some sec) rawBody sig (some raw) brevoMark nowIso now s).status
        = 200 ∧
      (wooPOST hm (some sec) rawBody sig (some raw) brevoMark nowIso now
          s).markLeadCall
        = some (jsTrim (jsToLower order.billing.email), toString order.id) ∧
      (wooPOST hm (some sec) rawBody sig (some raw) brevoMark nowIso now
          s).brevoCall
        = some (jsTrim (jsToLower order.billing.email), toString order.id) ∧
      (wooPOST hm (some sec) rawBody sig (some raw) brevoMark nowIso now
          s).store
        = (markLeadAsPurchased s (jsTrim (jsToLower order.billing.email))
            (toString order.id) now).2 ∧
      (brevoMark.success = false →
        (wooPOST hm (some sec) rawBody sig (some raw) brevoMark nowIso now
            s).message
          = "Order " ++ toString order.id
              ++ " processed with warning: Brevo update failed") := by
  cases hb : brevoMark.success <;>
    simp [wooPOST, hsig, hparse, hcomp, hb] <;>
    rfl

/-- C4 witness: a concrete signed completed order against the store, with a
    failing CRM outcome: status 200, both calls recorded, and the warning
    message. -/
theorem purchase_degradation_to_warning_witness :
    (wooPOST (fun _ _ => "SIG") (some "sec") "raw" (some "SIG")
        (some (some completedRawOrder)) { success := false, error := some "x" }
        "iso" 9 purchasedStore).status = 200 ∧
      (wooPOST (fun _ _ => "SIG") (some "sec") "raw" (some "SIG")
        (some (some completedRawOrder)) { success := false, error := some "x" }
        "iso" 9 purchasedStore).markLeadCall = some ("a@b.c", "12345") ∧
      (wooPOST (fun _ _ => "SIG") (some "sec") "raw" (some "SIG")
        (some (some completedRawOrder)) { success := false, error := some "x" }
        "iso" 9 purchasedStore).message
        = "Order 12345 processed with warning: Brevo update failed" := by
  have h := purchase_degradation_to_warning (fun _ _ => "SIG") "sec" "raw"
    (some "SIG") (some completedRawOrder) completedOrder
    { success := false, error := some "x" } "iso" 9 purchasedStore
    rfl rfl rfl
  exact ⟨h.1, h.2.1, h.2.2.2.2 rfl⟩

/-! ## The two runs of the idempotency argument -/

theorem sheetPOST_create_run (s0 : Store) (apiKey secret : Option String)
    (data : Option RawBody) (p : WebhookPayload) (b1 : AddContactResult)
    (id1 : String) (t1 : Nat)
    (hauth : validateApiKey apiKey secret = true)
    (hval : validatePayload data = Except.ok p)
    (hidx : hget s0.emailIndex p.email = none)
    (hfresh : hget s0.leads id1 = none) :
    ∃ l1 : Lead, l1.id = id1 ∧ l1.email = p.email ∧
      (sheetPOST apiKey secret (some data) b1 id1 t1 s0).store.leads
        = s0.leads ++ [(id1, l1)] ∧
      (sheetPOST apiKey secret (some data) b1 id1 t1 s0).store.emailIndex
        = s0.emailIndex ++ [(p.email, id1)] ∧
      (sheetPOST apiKey secret (some data) b1 id1 t1 s0).leadId = some id1 := by
  have hlook1 : getLeadByEmail s0 p.email = none := by
    simp [getLeadByEmail, hidx]
  rw [sheetPOST_create_spec apiKey secret data p b1 id1 t1 s0 hauth hval hlook1]
  simp only [updateLeadStatus, saveLead, hget_hset_self]
  rw [hset_hset_self, hset_eq_append hfresh, hset_eq_append hidx]
  refine ⟨_, ?_, ?_, rfl, ?_, ?_⟩
  · rw [applyPatch_id]
  · rw [applyPatch_email]
  · rfl
  · trivial

theorem sheetPOST_existing_run (s : Store) (apiKey secret : Option String)
    (data : Option RawBody) (p : WebhookPayload) (b : AddContactResult)
    (freshId : String) (now : Nat) (l : Lead)
    (hauth : validateApiKey apiKey secret = true)
    (hval : validatePayload data = Except.ok p)
    (hlook : getLeadByEmail s p.email = some l)
    (hself : hget s.leads l.id = some l) :
    ∃ l2 : Lead, l2.email = l.email ∧
      (sheetPOST apiKey secret (some data) b freshId now s).store.leads
        = hset s.leads l.id l2 ∧
      (sheetPOST apiKey secret (some data) b freshId now s).leadId
        = some l.id := by
  rw [sheetPOST_existing_spec apiKey secret data p b freshId now s l hauth
    hval hlook]
  simp only [updateLeadStatus, hself]
  refine ⟨_, ?_, rfl, ?_⟩
  · rw [applyPatch_email]
  · trivial

/-- C2: running the lead-intake `POST` twice with the same valid body (hence
    the same normalized email) against a store that has no lead for that
    email leaves exactly one stored Lead record with that email, and the
    second run returns the same `leadId` as the first. -/
theorem idempotent_upsert_by_email (s0 : Store) (apiKey secret : Option String)
    (data : Option RawBody) (p : WebhookPayload) (b1 b2 : AddContactResult)
    (id1 id2 : String) (t1 t2 : Nat)
    (hauth : validateApiKey apiKey secret = true)
    (hval : validatePayload data = Except.ok p)
    (hidx : hget s0.emailIndex p.email = none)
    (hfresh : hget s0.leads id1 = none)
    (hid : id1 ≠ "")
    (hnoemail : ∀ kv ∈ s0.leads, (kv.2).email ≠ p.email) :
    ((sheetPOST apiKey secret (some data) b2 id2 t2
          (sheetPOST apiKey secret (some data) b1 id1 t1 s0).store).store.leads.filter
        (fun kv => (kv.2).email == p.email)).length = 1 ∧
      (sheetPOST apiKey secret (some data) b2 id2 t2
          (sheetPOST apiKey secret (some data) b1 id1 t1 s0).store).leadId
        = (sheetPOST apiKey secret (some data) b1 id1 t1 s0).leadId ∧
      (sheetPOST apiKey secret (some data) b1 id1 t1 s0).leadId = some id1 := by
  obtain ⟨l1, hl1id, hl1email, hleads1, hindex1, hleadId1⟩ :=
    sheetPOST_create_run s0 apiKey secret data p b1 id1 t1 hauth hval hidx hfresh
  have hlook2 : getLeadByEmail
      (sheetPOST apiKey secret (some data) b1 id1 t1 s0).store p.email
        = some l1 := by
    unfold getLeadByEmail
    rw [hindex1, hget_append_left_none hidx]
    simp only [hget, beq_self_eq_true, if_true]
    have hid2 : (id1 == "") = false := beq_eq_false_iff_ne.mpr hid
    rw [if_neg (by simp [hid2])]
    rw [hleads1, hget_append_left_none hfresh]
    simp [hget]
  have hself2 : hget (sheetPOST apiKey secret (some data) b1 id1 t1 s0).store.leads
      l1.id = some l1 := by
    rw [hl1id, hleads1, hget_append_left_none hfresh]
    simp [hget]
  obtain ⟨l2, hl2email, hleads2, hleadId2⟩ :=
    sheetPOST_existing_run _ apiKey secret data p b2 id2 t2 l1 hauth hval
      hlook2 hself2
  refine ⟨?_, ?_, hleadId1⟩
  · rw [hleads2, hl1id, hleads1, hset_append_single hfresh]
    rw [List.filter_append]
    have h0 : s0.leads.filter (fun kv => (kv.2).email == p.email) = [] := by
      rw [List.filter_eq_nil_iff]
      intro kv hkv
      simp [hnoemail kv hkv]
    rw [h0]
    simp [hl2email, hl1email]
  · rw [hleadId2, hleadId1, hl1id]

/-- C2 witness: the two runs on the empty store with the body
    `{email: "A@B.c", name: "Ann B"}`, a successful first CRM outcome and a
    failing second one: one stored record for `a@b.c`, and both runs return
    lead id `id1`. -/
theorem idempotent_upsert_by_email_witness :
    ((sheetPOST (some "k") (some "k")
          (some (some { email := JField.str "A@B.c", name := JField.str "Ann B" }))
          { success := false, error := some "x" } "id2" 4
          (sheetPOST (some "k") (some "k")
            (some (some { email := JField.str "A@B.c", name := JField.str "Ann B" }))
            { success := true, contactId := some 9 } "id1" 3
            emptyStore).store).store.leads.filter
        (fun kv => (kv.2).email == "a@b.c")).length = 1 ∧
      (sheetPOST (some "k") (some "k")
          (some (some { email := JField.str "A@B.c", name := JField.str "Ann B" }))
          { success := false, error := some "x" } "id2" 4
          (sheetPOST (some "k") (some "k")
            (some (some { email := JField.str "A@B.c", name := JField.str "Ann B" }))
            { success := true, contactId := some 9 } "id1" 3
            emptyStore).store).leadId
        = (sheetPOST (some "k") (some "k")
            (some (some { email := JField.str "A@B.c", name := JField.str "Ann B" }))
            { success := true, contactId := some 9 } "id1" 3
            emptyStore).leadId ∧
      (sheetPOST (some "k") (some "k")
          (some (some { email := JField.str "A@B.c", name := JField.str "Ann B" }))
          { success := true, contactId := some 9 } "id1" 3
          emptyStore).leadId = some "id1" :=
  idempotent_upsert_by_email emptyStore (some "k") (some "k")
    (some { email := JField.str "A@B.c", name := JField.str "Ann B" })
    { email := "a@b.c", name := some "Ann B", phone := none
      source := "instagram", tag := "general" }
    { success := true, contactId := some 9 }
    { success := false, error := some "x" } "id1" "id2" 3 4
    rfl rfl rfl rfl (by decide) (by intro kv hkv; cases hkv)

end NexoMail
